import Mathlib

/-!
Shallow embedding of the SpineAnnotationSlicelet scan-source and annotation
code (src/xnat.py, src/ImageIterator.py, src/vertebrae_annotation.py).
Python strings are Lean Strings, the filesystem is modelled explicitly
(lists of directory and file paths plus probe functions), and fallible
Python methods are embedded as functions returning Except results, paired
with the mutated object state wherever Python mutates self before raising.
-/

namespace SpineSlicelet

/-- Python exceptions the embedded code can raise: KeyError from
`VertebraeAnnotations`, StopIteration from the iterators, AttributeError
and TypeError style failures from operating on a None attribute, and
RecursionError from the recursion limit. -/
inductive PyError where
  | keyError (label : String)
  | stopIteration
  | attributeError (msg : String)
  | recursionError
deriving DecidableEq

/-- Embedding of Python `s.endswith(t)` (and of the test
`name[-1] == '/'` used by the zip extraction, which agrees with it on
every non-empty name). -/
def strEndsWith (s t : String) : Bool :=
  t.data.isSuffixOf s.data

/-- Embedding of the leading-slash test of `os.path.join`. -/
def strStartsWith (s t : String) : Bool :=
  t.data.isPrefixOf s.data

/-- Embedding of Python `s.rstrip(chars)`: removes every trailing
character of `s` that occurs in the character set `chars` (this is the
`rstrip` used by `LocalFileIterator`, a character-set strip, not a
suffix removal). -/
def pyRstrip (s chars : String) : String :=
  String.mk ((s.data.reverse.dropWhile (fun c => c ∈ chars.data)).reverse)

/-- Embedding of `os.path.basename`: the part of the path after the last
slash. -/
def pyBasename (p : String) : String :=
  String.mk ((p.data.reverse.takeWhile (fun c => c != '/')).reverse)

/-- Embedding of `os.path.dirname` with POSIX semantics: everything up to
the last slash, with trailing slashes stripped unless the head is all
slashes. -/
def pyDirname (p : String) : String :=
  let headRev := p.data.reverse.dropWhile (fun c => c != '/')
  if headRev.all (fun c => c == '/') then String.mk headRev.reverse
  else String.mk ((headRev.dropWhile (fun c => c == '/')).reverse)

/-- Embedding of `os.path.join` on two components (POSIX semantics: an
absolute second component discards the first). -/
def pyJoin (a b : String) : String :=
  if strStartsWith b "/" then b
  else if a = "" then b
  else if strEndsWith a "/" then a ++ b
  else a ++ "/" ++ b

/-- Embedding of Python `s.split(sep, 1)[0]`: the part of `s` before the
first occurrence of the separator character (the whole string when the
separator does not occur). -/
def pySplitHead (s : String) (sep : Char) : String :=
  String.mk (s.data.takeWhile (fun c => c != sep))

/-- Value held by the `_current_annotation` attribute of the
`ImageIterator` family: Python None, the initial Python False set by
`ImageIterator.__init__`, or an annotation file path. -/
inductive AnnotVal where
  | pyNone
  | pyFalse
  | path (p : String)
deriving DecidableEq

/-- Embedding of the Python test `x is not None` used by
`ImageIterator.has_annotation`. -/
def AnnotVal.isNotNone : AnnotVal → Bool
  | .pyNone => false
  | _ => true

/-! ## vertebrae_annotation.py -/

/-- The fixed label schema built in `VertebraeAnnotations.__init__`. -/
def vertebraLabels : List String :=
  ["C1", "C2", "C3", "T1", "T2", "T3", "L1", "L2", "L3", "S1", "S2", "S3"]

/-- Coordinate triple stored per label; the unset sentinel is
`(None, None, None)`, i.e. `(none, none, none)` here. -/
abbrev Coord := Option Int × Option Int × Option Int

/-- Embedding of `VertebraeAnnotations`. The Python `_annotations` dict
has exactly the keys of `vertebraLabels` for the whole object lifetime
(both accessors guard on key membership before touching it), so it is
modelled as the fixed key list `vertebraLabels` together with a total
value function consulted only at those keys. -/
structure VertebraeAnnotations where
  project : String
  subject_label : String
  session_label : String
  scan_id : String
  annotations : String → Coord

/-- Embedding of `VertebraeAnnotations.__init__`: every label of the
schema starts at the unset sentinel `(None, None, None)`. -/
def VertebraeAnnotations.init (project subject_label session_label scan_id : String) :
    VertebraeAnnotations :=
  { project := project, subject_label := subject_label,
    session_label := session_label, scan_id := scan_id,
    annotations := fun _ => (none, none, none) }

/-- Embedding of `VertebraeAnnotations.get_labels` (the dict keys, which
are always exactly the schema labels). -/
def VertebraeAnnotations.get_labels (_ : VertebraeAnnotations) : List String :=
  vertebraLabels

/-- Embedding of `VertebraeAnnotations.set_coordinate`: KeyError outside
the schema, otherwise point update of the stored triple. -/
def VertebraeAnnotations.set_coordinate (a : VertebraeAnnotations)
    (label : String) (x y z : Int) : Except PyError VertebraeAnnotations :=
  if label ∈ a.get_labels then
    .ok { a with annotations :=
            fun l => if l = label then (some x, some y, some z) else a.annotations l }
  else
    .error (.keyError label)

/-- Embedding of `VertebraeAnnotations.get_coordinate`: KeyError outside
the schema, otherwise the stored triple. -/
def VertebraeAnnotations.get_coordinate (a : VertebraeAnnotations)
    (label : String) : Except PyError Coord :=
  if label ∈ a.get_labels then .ok (a.annotations label)
  else .error (.keyError label)

/-- JSON values: the image of Python `json.dumps` and `json.loads` on the
data handled here (strings, integers, null, arrays, objects with ordered
fields). -/
inductive JsonVal where
  | null
  | str (s : String)
  | num (n : Int)
  | arr (xs : List JsonVal)
  | obj (fields : List (String × JsonVal))

/-- Serialisation of one optional scalar: Python None becomes JSON null. -/
def optIntJson : Option Int → JsonVal
  | none => .null
  | some n => .num n

/-- Serialisation of one coordinate: a Python 3-tuple becomes a JSON
array of three entries. -/
def coordJson : Coord → JsonVal
  | (x, y, z) => .arr [optIntJson x, optIntJson y, optIntJson z]

/-- Embedding of `VertebraeAnnotations.to_json`: the JSON object built by
`json.dumps` with the five fields in source order, the annotations field
holding the full label-to-coordinate mapping in schema order. -/
def VertebraeAnnotations.to_json (a : VertebraeAnnotations) : JsonVal :=
  .obj [("project", .str a.project),
        ("subject", .str a.subject_label),
        ("session", .str a.session_label),
        ("scan", .str a.scan_id),
        ("annotations", .obj (vertebraLabels.map (fun l => (l, coordJson (a.annotations l)))))]

/-- Field names of a JSON object (empty for non-objects). -/
def jsonKeys : JsonVal → List String
  | .obj fields => fields.map Prod.fst
  | _ => []

/-- Object field lookup, as a JSON consumer (or Python `json.loads`
followed by indexing) would perform it. -/
def jsonLookup (j : JsonVal) (key : String) : Option JsonVal :=
  match j with
  | .obj fields => (fields.find? (fun p => p.1 == key)).map Prod.snd
  | _ => none

/-- Parsing direction for one optional scalar. -/
def decodeOptInt : JsonVal → Option (Option Int)
  | .null => some none
  | .num n => some (some n)
  | _ => none

/-- Parsing direction for one coordinate triple. -/
def decodeCoord : JsonVal → Option Coord
  | .arr [a, b, c] =>
      match decodeOptInt a, decodeOptInt b, decodeOptInt c with
      | some x, some y, some z => some (x, y, z)
      | _, _, _ => none
  | _ => none

/-- Parsing direction for the field list of the annotations object. -/
def decodeFields : List (String × JsonVal) → Option (List (String × Coord))
  | [] => some []
  | (l, v) :: rest =>
      match decodeCoord v, decodeFields rest with
      | some c, some cs => some ((l, c) :: cs)
      | _, _ => none

/-- Parsing the serialised record back into its label-to-coordinate
mapping: look up the annotations object and decode every field. -/
def decodeAnnotMap (j : JsonVal) : Option (List (String × Coord)) :=
  match jsonLookup j "annotations" with
  | some (.obj fields) => decodeFields fields
  | _ => none

/-! ## Scan catalogue rows -/

/-- One row of the scan catalogue CSV, with the columns the code reads
(project, subject_id, session_id, session_label, id). -/
structure ScanRecord where
  project : String
  subject_id : String
  session_id : String
  session_label : String
  id : String
deriving DecidableEq

/-- Embedding of `tempfile.gettempdir()`. -/
def tmpDir : String := "/tmp"

/-! ## xnat.py SimpleXNAT -/

/-- Object and filesystem state of the `SimpleXNAT` of src/xnat.py.
`session` is `some ()` once `requests.Session()` has been assigned;
`diskDirs` lists the directories currently existing on disk that the
source manages (the per-scan working directories). `current_scan_index`
is only meaningful after `iter` has run, matching the attribute that
`__iter__` introduces. -/
structure XnatState where
  server : String
  session : Option Unit
  scans : List ScanRecord
  current_scan : Option ScanRecord
  current_scan_folder : Option String
  current_scan_index : Nat
  diskDirs : List String
deriving DecidableEq

/-- Embedding of `SimpleXNAT.__init__`: `user`/`pwd` are the explicit
credential arguments, `netrcAuth` the result of the netrc lookup (`none`
when no entry resolves, in which case Python raises before
`requests.Session()` is assigned), `catalog` the parsed CSV response of
the search request. On failure the partially initialised object, with
exactly the attributes assigned before the raise, is returned together
with the error. -/
def XnatState.construct (server : String) (user pwd : Option String)
    (netrcAuth : Option (String × String)) (catalog : List ScanRecord) :
    Except (PyError × XnatState) XnatState :=
  let s0 : XnatState :=
    { server := server, session := none, scans := [], current_scan := none,
      current_scan_folder := none, current_scan_index := 0, diskDirs := [] }
  match user, pwd with
  | some _, some _ => .ok { s0 with session := some (), scans := catalog }
  | _, _ =>
      match netrcAuth with
      | some _ => .ok { s0 with session := some (), scans := catalog }
      | none => .error (.attributeError "netrc authenticators", s0)

/-- The attribute state of a fully constructed `SimpleXNAT` (explicit
credentials, catalogue fetched). -/
def XnatState.mkLive (server : String) (catalog : List ScanRecord) : XnatState :=
  { server := server, session := some (), scans := catalog, current_scan := none,
    current_scan_folder := none, current_scan_index := 0, diskDirs := [] }

/-- Embedding of `SimpleXNAT.__iter__` (the begin operation): position is
reset to index 0, the catalogue is not re-fetched. -/
def XnatState.iter (s : XnatState) : XnatState :=
  { s with current_scan_index := 0 }

/-- Embedding of `SimpleXNAT.delete_scan_dicom_folder`: remove the
current working directory from disk when it exists, then clear the
attribute. -/
def XnatState.delete_scan_dicom_folder (s : XnatState) : XnatState :=
  match s.current_scan_folder with
  | some f => { s with diskDirs := s.diskDirs.filter (fun d => d != f),
                       current_scan_folder := none }
  | none => { s with current_scan_folder := none }

/-- Embedding of the `SimpleXNAT.__next__` of src/xnat.py: delete the
previous working directory first if one exists, raise StopIteration on
exhaustion, otherwise advance the index past the selected row and derive
the next working-directory path under the temp directory. The mutated
state is returned alongside the result, as Python leaves the mutations in
place when it raises. -/
def XnatState.next (s0 : XnatState) : Except PyError ScanRecord × XnatState :=
  let s := if s0.current_scan_folder.isSome then s0.delete_scan_dicom_folder else s0
  if h : s.current_scan_index < s.scans.length then
    let r := s.scans.get ⟨s.current_scan_index, h⟩
    let filename := r.session_label ++ "-" ++ r.id ++ ".json"
    (.ok r,
     { s with current_scan_index := s.current_scan_index + 1,
              current_scan := some r,
              current_scan_folder := some (pyJoin tmpDir filename) })
  else
    (.error .stopIteration, s)

/-- Embedding of `SimpleXNAT.__exit__` (the teardown): the working
directory is deleted first, then `self._session.close()` runs, which
raises an AttributeError when `_session` is still None because
construction failed before the session was created. The folder deletion
precedes the session access, so it persists even when the call raises. -/
def XnatState.exit (s0 : XnatState) : Except PyError Unit × XnatState :=
  let s := s0.delete_scan_dicom_folder
  match s.session with
  | none => (.error (.attributeError "close"), s)
  | some _ => (.ok (), s)

/-- HTTP requests issued by the annotation upload. -/
inductive HttpReq where
  | put (url : String)
  | putFile (url : String) (file : String)
deriving DecidableEq

/-- Embedding of `SimpleXNAT.upload_annotations` of src/xnat.py (the
`store_annotations` of the ImageIterator variant builds the identical
URLs): the derived filename is `{session_label}-{id}.json`, the first PUT
creates the ANNOTATIONS resource container on the scan path, the second
PUT uploads the file into it. The returned value is the request sequence
issued; with no current scan the attribute access on None raises. -/
def XnatState.upload_annotations (s : XnatState) (annotation_file : String) :
    Except PyError (List HttpReq) :=
  match s.current_scan with
  | none => .error (.attributeError "current scan is None")
  | some r =>
      let url := s.server ++ "/data/projects/" ++ r.project ++ "/subjects/" ++
        r.subject_id ++ "/experiments/" ++ r.session_id ++ "/scans/" ++ r.id ++
        "/resources/ANNOTATIONS"
      .ok [.put url, .putFile (url ++ "/files/" ++ (r.session_label ++ "-" ++ r.id ++ ".json"))
             annotation_file]

/-- File-level effect of `SimpleXNAT.get_scan_dicom_folder`: `files0` is
the list of files on disk before the call, `zipEntries` the entry names
of the downloaded archive. The archive is written to `workdir ++ ".zip"`,
every entry whose name does not end in a slash is extracted to the join
of the working directory and the basename of the entry name, and the
archive file is then removed (`os.remove`). Returns the files on disk
afterwards together with the return value of the method. -/
def runGetScanDicomFolder (workdir : String) (zipEntries : List String)
    (files0 : List String) : List String × String :=
  let zipPath := workdir ++ ".zip"
  let files1 := files0 ++ [zipPath]
  let extracted := (zipEntries.filter (fun e => !(strEndsWith e "/"))).map
    (fun e => pyJoin workdir (pyBasename e))
  let files2 := files1 ++ extracted
  (files2.filter (fun p => p != zipPath), workdir)

/-- Operations a caller can perform on a remote source between
construction and teardown, at the granularity of their directory-level
disk effects. -/
inductive SourceOp where
  | advance
  | materialize
  | teardown

/-- Directory-level disk effect of one operation on the xnat.py source:
`advance` is `__next__`; `materialize` is `get_scan_dicom_folder`, whose
extraction creates the current working directory on disk (no directory is
touched when the current folder is None and the call fails instead);
`teardown` is `__exit__`. -/
def XnatState.runOp (s : XnatState) : SourceOp → XnatState
  | .advance => (XnatState.next s).2
  | .materialize =>
      match s.current_scan_folder with
      | some f => { s with diskDirs := if f ∈ s.diskDirs then s.diskDirs else f :: s.diskDirs }
      | none => s
  | .teardown => (XnatState.exit s).2

/-- Run a sequence of operations from a given state. -/
def XnatState.runOps (s : XnatState) (ops : List SourceOp) : XnatState :=
  ops.foldl XnatState.runOp s

/-- Invariant on the working directories of a remote source: either none
exists on disk, or exactly the current one does. -/
def XnatState.WdInv (s : XnatState) : Prop :=
  s.diskDirs = [] ∨ ∃ f, s.current_scan_folder = some f ∧ s.diskDirs = [f]

/-! ## ImageIterator.py LocalFileIterator -/

/-- Object and filesystem state of `LocalFileIterator`. `isfile` models
the `os.path.isfile` probe on the host filesystem; `current_annot` is the
`_current_annotation` attribute (initialised to Python False by
`ImageIterator.__init__`). -/
structure LocalState where
  scans : List String
  isfile : String → Bool
  current_scan : Option String
  current_scan_folder : Option String
  current_annot : AnnotVal
  skip_annotated : Bool
  current_scan_index : Nat

/-- Embedding of `LocalFileIterator.__init__` for the directory case:
the catalogue is the listing filtered to names ending in `.nii.gz`, each
joined onto the directory path; the base-class init sets the current
annotation to Python False and the skip flag to False. -/
def LocalState.init (dirPath : String) (listing : List String)
    (isfile : String → Bool) : LocalState :=
  { scans := (listing.filter (fun f => strEndsWith f ".nii.gz")).map (fun f => pyJoin dirPath f),
    isfile := isfile,
    current_scan := none,
    current_scan_folder := none,
    current_annot := .pyFalse,
    skip_annotated := false,
    current_scan_index := 0 }

/-- Embedding of `ImageIterator.__iter__` (the begin operation). -/
def LocalState.iter (s : LocalState) : LocalState :=
  { s with current_scan_index := 0 }

/-- Embedding of `ImageIterator.has_annotation` on the local source:
the `is not None` test on the current annotation attribute. -/
def LocalState.has_annot (s : LocalState) : Bool :=
  s.current_annot.isNotNone

/-- Embedding of `ImageIterator.set_skip_annotated`. -/
def LocalState.set_skip_annotated (s : LocalState) (b : Bool) : LocalState :=
  { s with skip_annotated := b }

/-- Embedding of `LocalFileIterator.__next__`. The index is incremented
before the bounds check, StopIteration is raised on exhaustion, otherwise
the scan at the incremented index becomes current, its sibling annotation
path is probed (the `rstrip` character-set strip plus `.json`), and when
the skip flag is set and the probe hit, the method calls itself
recursively (`next(self)`), finally returning the mutated current scan
and annotation. The recursion depth is bounded by the catalogue length;
`fuel` makes this explicit, and the fuel-exhaustion marker
(`recursionError`, mirroring the Python recursion limit) is unreachable
from `LocalState.next` below because the index grows on every level. -/
def LocalState.nextFuel : Nat → LocalState →
    Except PyError (Option String × AnnotVal) × LocalState
  | 0, s => (.error .recursionError, s)
  | fuel + 1, s =>
      let i := s.current_scan_index + 1
      if h : i < s.scans.length then
        let scan := s.scans.get ⟨i, h⟩
        let candidate := pyRstrip scan ".nii.gz" ++ ".json"
        let annot := if s.isfile candidate then AnnotVal.path candidate else AnnotVal.pyNone
        let s1 : LocalState :=
          { s with current_scan_index := i,
                   current_scan := some scan,
                   current_scan_folder := some (pyDirname scan),
                   current_annot := annot }
        if s1.skip_annotated && LocalState.has_annot s1 then
          match LocalState.nextFuel fuel s1 with
          | (.ok _, s2) => (.ok (s2.current_scan, s2.current_annot), s2)
          | (.error e, s2) => (.error e, s2)
        else
          (.ok (some scan, annot), s1)
      else
        (.error .stopIteration, { s with current_scan_index := i })

/-- Entry point of the embedded `LocalFileIterator.__next__`: the fuel
bound `length + 1` strictly dominates the recursion depth. -/
def LocalState.next (s : LocalState) : Except PyError (Option String × AnnotVal) × LocalState :=
  LocalState.nextFuel (s.scans.length + 1) s

/-- Embedding of `LocalFileIterator.store_annotations`: the destination
is the join of the current scan folder and the current scan path with the
`rstrip` character-set strip applied plus `.json`; the source artifact is
copied there. Returned as the (source, destination) pair of the copy;
with no current scan or folder the attribute access on None raises. -/
def LocalState.store_annotations (s : LocalState) (annotation_file : String) :
    Except PyError (String × String) :=
  match s.current_scan_folder, s.current_scan with
  | some folder, some scan =>
      .ok (annotation_file, pyJoin folder (pyRstrip scan ".nii.gz" ++ ".json"))
  | _, _ => .error (.attributeError "current scan is None")

/-- Embedding of `LocalFileIterator.__exit__`: a bare return, so a total
no-op that never raises and changes nothing. -/
def LocalState.exit (s : LocalState) : Except PyError Unit × LocalState :=
  (.ok (), s)

/-! ## ImageIterator.py SimpleXNAT -/

/-- Boolean-mask row selection `scans[filter]` on the catalogue
dataframe. -/
def maskFilter (scans : List ScanRecord) (mask : List Bool) : List ScanRecord :=
  ((scans.zip mask).filter (fun p => p.2)).map (fun p => p.1)

/-- Object and filesystem state of the `SimpleXNAT` of
src/ImageIterator.py. `filter` is the boolean row mask (all True after
`_get_scans`), `tmpCounter` produces the fresh directory names of
`tempfile.mkdtemp`, `current_annot` is the inherited
`_current_annotation` attribute, which this variant never updates. The
on-disk directories this source creates fall into two disjoint kinds,
tracked separately: `diskDirs` holds the per-scan working directories
(the extraction targets `_current_scan_folder`, children of the mkdtemp
parents, the only directories `delete_scan_dicom_folder` ever removes),
while `diskTmpParents` holds the empty parent directories that
`tempfile.mkdtemp` itself creates on every advance and that no code path
ever deletes. -/
structure XnatIIState where
  server : String
  session : Option Unit
  scans : List ScanRecord
  filter : List Bool
  patient : Option String
  current_scan : Option ScanRecord
  current_scan_folder : Option String
  current_annot : AnnotVal
  skip_annotated : Bool
  current_scan_index : Nat
  diskDirs : List String
  diskTmpParents : List String
  tmpCounter : Nat

/-- Embedding of the `SimpleXNAT.__init__` of src/ImageIterator.py with
explicit credentials: the base-class init sets the annotation attribute
to Python False, `_get_scans` stores the catalogue and an all-True row
mask. -/
def XnatIIState.init (server : String) (catalog : List ScanRecord) : XnatIIState :=
  { server := server, session := some (), scans := catalog,
    filter := List.replicate catalog.length true,
    patient := none, current_scan := none, current_scan_folder := none,
    current_annot := .pyFalse, skip_annotated := false,
    current_scan_index := 0, diskDirs := [], diskTmpParents := [], tmpCounter := 0 }

/-- Embedding of the `SimpleXNAT.__init__` of src/ImageIterator.py with
the credential paths made explicit, as for the xnat.py variant: on a
resolution failure (no explicit credentials and no netrc entry) Python
raises before `requests.Session()` is assigned, leaving the partially
initialised object whose session is still None. -/
def XnatIIState.construct (server : String) (user pwd : Option String)
    (netrcAuth : Option (String × String)) (catalog : List ScanRecord) :
    Except (PyError × XnatIIState) XnatIIState :=
  let s0 : XnatIIState :=
    { server := server, session := none, scans := [], filter := [],
      patient := none, current_scan := none, current_scan_folder := none,
      current_annot := .pyFalse, skip_annotated := false,
      current_scan_index := 0, diskDirs := [], diskTmpParents := [], tmpCounter := 0 }
  match user, pwd with
  | some _, some _ => .ok (XnatIIState.init server catalog)
  | _, _ =>
      match netrcAuth with
      | some _ => .ok (XnatIIState.init server catalog)
      | none => .error (.attributeError "netrc authenticators", s0)

/-- Embedding of `ImageIterator.__iter__` on the remote variant. -/
def XnatIIState.iter (s : XnatIIState) : XnatIIState :=
  { s with current_scan_index := 0 }

/-- Embedding of `ImageIterator.has_annotation` on the remote variant. -/
def XnatIIState.has_annot (s : XnatIIState) : Bool :=
  s.current_annot.isNotNone

/-- Embedding of `ImageIterator.set_skip_annotated` on the remote
variant. -/
def XnatIIState.set_skip_annotated (s : XnatIIState) (b : Bool) : XnatIIState :=
  { s with skip_annotated := b }

/-- Embedding of `SimpleXNAT.delete_scan_dicom_folder` of
src/ImageIterator.py (same body as the xnat.py one): it removes the
current working directory only, never the mkdtemp parent that contains
it. -/
def XnatIIState.delete_scan_dicom_folder (s : XnatIIState) : XnatIIState :=
  match s.current_scan_folder with
  | some f => { s with diskDirs := s.diskDirs.filter (fun d => d != f),
                       current_scan_folder := none }
  | none => { s with current_scan_folder := none }

/-- Embedding of the `SimpleXNAT.__next__` of src/ImageIterator.py:
delete the previous working directory if one exists, increment the index
before the bounds check against the filtered catalogue, raise
StopIteration on exhaustion, otherwise select the filtered row at the
incremented index, create a fresh `mkdtemp` parent directory on disk
(recorded in `diskTmpParents`, which nothing ever shrinks) and derive the
working-directory path inside it, and record the patient name (the
session label up to the first underscore). Neither the skip flag nor any
annotation probe is consulted, and `_current_annotation` is never
written. -/
def XnatIIState.next (s0 : XnatIIState) : Except PyError String × XnatIIState :=
  let s := if s0.current_scan_folder.isSome then s0.delete_scan_dicom_folder else s0
  let i := s.current_scan_index + 1
  let filtered := maskFilter s.scans s.filter
  if h : i < filtered.length then
    let r := filtered.get ⟨i, h⟩
    let sessionLabel := r.session_label
    let parent := tmpDir ++ "/mkdtemp" ++ Nat.repr s.tmpCounter
    let foldername := sessionLabel ++ "-" ++ r.id
    (.ok sessionLabel,
     { s with current_scan_index := i,
              current_scan := some r,
              current_scan_folder := some (pyJoin parent foldername),
              patient := some (pySplitHead sessionLabel '_'),
              diskTmpParents := parent :: s.diskTmpParents,
              tmpCounter := s.tmpCounter + 1 })
  else
    (.error .stopIteration, { s with current_scan_index := i })

/-- Embedding of the `SimpleXNAT.__exit__` of src/ImageIterator.py (same
body as the xnat.py one): delete the current working directory, then
touch the session, which raises when it is still None. Neither branch
touches the leaked mkdtemp parents. -/
def XnatIIState.exit (s0 : XnatIIState) : Except PyError Unit × XnatIIState :=
  let s := XnatIIState.delete_scan_dicom_folder s0
  match s.session with
  | none => (.error (.attributeError "close"), s)
  | some _ => (.ok (), s)

/-- Directory-level disk effect of one operation on the ImageIterator.py
remote source: `advance` is `__next__`; `materialize` is
`get_scan_folder`, whose extraction creates the current working directory
on disk (nothing is touched when the current folder is None and the call
fails instead); `teardown` is `__exit__`. -/
def XnatIIState.runOp (s : XnatIIState) : SourceOp → XnatIIState
  | .advance => (XnatIIState.next s).2
  | .materialize =>
      match s.current_scan_folder with
      | some f => { s with diskDirs := if f ∈ s.diskDirs then s.diskDirs else f :: s.diskDirs }
      | none => s
  | .teardown => (XnatIIState.exit s).2

/-- Run a sequence of operations on the ImageIterator.py remote source. -/
def XnatIIState.runOps (s : XnatIIState) (ops : List SourceOp) : XnatIIState :=
  ops.foldl XnatIIState.runOp s

/-- Invariant on the working directories of the ImageIterator.py remote
source: either none exists on disk, or exactly the current one does. -/
def XnatIIState.WdInv (s : XnatIIState) : Prop :=
  s.diskDirs = [] ∨ ∃ f, s.current_scan_folder = some f ∧ s.diskDirs = [f]

/-! ## Concrete instances used by witnesses and counterexamples -/

/-- Catalogue row matching the example of the spec: project P, subject
S1, experiment SESS1, scan id 3, session label SESS1. -/
def recA : ScanRecord :=
  { project := "P", subject_id := "S1", session_id := "SESS1",
    session_label := "SESS1", id := "3" }

/-- A second catalogue row. -/
def recB : ScanRecord :=
  { project := "P", subject_id := "S2", session_id := "SESS2",
    session_label := "SESS2", id := "4" }

/-- A third catalogue row. -/
def recC : ScanRecord :=
  { project := "P", subject_id := "S3", session_id := "SESS3",
    session_label := "SESS3", id := "5" }

/-- Remote ImageIterator source over a three-row catalogue, after begin
(three rows so that the pre-increment slip still leaves two successful
advances). -/
def remoteThree : XnatIIState :=
  XnatIIState.iter (XnatIIState.init "srv" [recA, recB, recC])

/-- Local iterator over a one-file directory, after begin. -/
def localOne : LocalState :=
  LocalState.iter (LocalState.init "/d" ["a.nii.gz"] (fun _ => false))

/-- Local iterator over a two-file directory with no annotation files,
after begin. -/
def localTwo : LocalState :=
  LocalState.iter (LocalState.init "/d" ["a.nii.gz", "b.nii.gz"] (fun _ => false))

/-- Local iterator whose second catalogue entry has a sibling annotation
file, with the skip flag enabled, after begin. -/
def localSkip : LocalState :=
  LocalState.set_skip_annotated
    (LocalState.iter
      (LocalState.init "/d" ["x.nii.gz", "a.nii.gz", "b.nii.gz"]
        (fun f => f == "/d/a.json")))
    true

/-- Remote ImageIterator source over a two-row catalogue with the skip
flag enabled, after begin. -/
def remoteSkip : XnatIIState :=
  XnatIIState.set_skip_annotated (XnatIIState.iter (XnatIIState.init "srv" [recA, recB])) true

/-- The partially initialised object left behind when the
`SimpleXNAT.__init__` of src/xnat.py raises during credential resolution
(no explicit credentials and no netrc entry): exactly the attributes
assigned before the raise, with the session still None. -/
def partialXnat : XnatState :=
  { server := "srv", session := none, scans := [], current_scan := none,
    current_scan_folder := none, current_scan_index := 0, diskDirs := [] }

/-- The partially initialised object left behind when the
`SimpleXNAT.__init__` of src/ImageIterator.py raises during credential
resolution: attributes assigned before the raise, session still None. -/
def partialXnatII : XnatIIState :=
  { server := "srv", session := none, scans := [], filter := [],
    patient := none, current_scan := none, current_scan_folder := none,
    current_annot := .pyFalse, skip_annotated := false,
    current_scan_index := 0, diskDirs := [], diskTmpParents := [], tmpCounter := 0 }

/-- A fully constructed xnat.py source mid-iteration: current scan row
selected and its working directory materialised on disk. -/
def xnatLive : XnatState :=
  { server := "srv", session := some (), scans := [recA], current_scan := some recA,
    current_scan_folder := some "/tmp/SESS1-3.json", current_scan_index := 1,
    diskDirs := ["/tmp/SESS1-3.json"] }

/-- A fully constructed ImageIterator.py remote source mid-iteration:
current scan row selected, its working directory materialised on disk
inside a leaked mkdtemp parent. -/
def xnatIILive : XnatIIState :=
  { server := "srv", session := some (), scans := [recA, recB], filter := [true, true],
    patient := some "SESS2", current_scan := some recB,
    current_scan_folder := some "/tmp/mkdtemp0/SESS2-4",
    current_annot := .pyFalse, skip_annotated := false, current_scan_index := 1,
    diskDirs := ["/tmp/mkdtemp0/SESS2-4"], diskTmpParents := ["/tmp/mkdtemp0"],
    tmpCounter := 1 }

/-- Local iterator state whose current scan filename stem ends in a
character drawn from the `.nii.gz` strip set. -/
def localStoreState : LocalState :=
  { scans := ["/data/scan_z.nii.gz"], isfile := fun _ => false,
    current_scan := some "/data/scan_z.nii.gz",
    current_scan_folder := some "/data",
    current_annot := .pyNone, skip_annotated := false, current_scan_index := 0 }

/-! ## Theorems -/

/-- Parsing inverts serialisation on a single coordinate triple. -/
theorem decodeCoord_coordJson (c : Coord) : decodeCoord (coordJson c) = some c := by
  obtain ⟨x, y, z⟩ := c
  cases x <;> cases y <;> cases z <;> rfl

/-- Parsing inverts serialisation on a whole field list built from a
label list and a value function. -/
theorem decodeFields_map (f : String → Coord) (ls : List String) :
    decodeFields (ls.map (fun l => (l, coordJson (f l)))) =
      some (ls.map (fun l => (l, f l))) := by
  induction ls with
  | nil => rfl
  | cons hd tl ih => simp [decodeFields, decodeCoord_coordJson, ih]

/-- C8: set_coordinate and get_coordinate raise KeyError exactly when the
label is outside the fixed schema, and for a schema label, get after set
returns exactly the supplied (x, y, z) triple. -/
theorem C8_label_schema (a : VertebraeAnnotations) (label : String) (x y z : Int) :
    (label ∉ vertebraLabels →
      a.set_coordinate label x y z = .error (.keyError label) ∧
      a.get_coordinate label = .error (.keyError label)) ∧
    (label ∈ vertebraLabels →
      ∃ b, a.set_coordinate label x y z = .ok b ∧
        b.get_coordinate label = .ok (some x, some y, some z)) := by
  constructor
  · intro hout
    constructor
    · simp [VertebraeAnnotations.set_coordinate, VertebraeAnnotations.get_labels, hout]
    · simp [VertebraeAnnotations.get_coordinate, VertebraeAnnotations.get_labels, hout]
  · intro hin
    refine ⟨{ a with annotations :=
        fun l => if l = label then (some x, some y, some z) else a.annotations l }, ?_, ?_⟩
    · simp [VertebraeAnnotations.set_coordinate, VertebraeAnnotations.get_labels, hin]
    · simp [VertebraeAnnotations.get_coordinate, VertebraeAnnotations.get_labels, hin]

/-- Witness for C8 at the concrete labels of the spec example: X9 is
rejected, C1 set then read returns the supplied triple. -/
theorem C8_label_schema_witness :
    ("X9" ∉ vertebraLabels ∧
      (VertebraeAnnotations.init "P" "S1" "SESS1" "3").set_coordinate "X9" 1 2 3 =
        .error (.keyError "X9")) ∧
    ("C1" ∈ vertebraLabels ∧
      ∃ b, (VertebraeAnnotations.init "P" "S1" "SESS1" "3").set_coordinate "C1" 1 2 3 = .ok b ∧
        b.get_coordinate "C1" = .ok (some 1, some 2, some 3)) :=
  ⟨⟨by decide,
    ((C8_label_schema (VertebraeAnnotations.init "P" "S1" "SESS1" "3") "X9" 1 2 3).1
      (by decide)).1⟩,
   ⟨by decide,
    (C8_label_schema (VertebraeAnnotations.init "P" "S1" "SESS1" "3") "C1" 1 2 3).2
      (by decide)⟩⟩

/-- C9: serialisation produces a JSON object with exactly the five fields
project, subject, session, scan, annotations; the annotations object maps
every schema label to its coordinate with unset entries as null; and
parsing the serialised output reproduces the full label-to-coordinate
mapping, including the unset entries. -/
theorem C9_serialize_roundtrip (a : VertebraeAnnotations) :
    jsonKeys (VertebraeAnnotations.to_json a) =
      ["project", "subject", "session", "scan", "annotations"] ∧
    jsonLookup (VertebraeAnnotations.to_json a) "annotations" =
      some (.obj (vertebraLabels.map (fun l => (l, coordJson (a.annotations l))))) ∧
    decodeAnnotMap (VertebraeAnnotations.to_json a) =
      some (vertebraLabels.map (fun l => (l, a.annotations l))) := by
  refine ⟨rfl, rfl, ?_⟩
  have h : decodeAnnotMap (VertebraeAnnotations.to_json a) =
      decodeFields (vertebraLabels.map (fun l => (l, coordJson (a.annotations l)))) := rfl
  rw [h, decodeFields_map]

/-- C10: on a freshly constructed ImageIterator-family source, before any
advance, the current-annotation attribute is the Python False set by the
base-class init, and the has-annotation probe (an is-not-None test)
therefore returns True rather than reflecting any real probe. -/
theorem C10_fresh_probe_true (dirPath : String) (listing : List String)
    (isfile : String → Bool) (server : String) (catalog : List ScanRecord) :
    (LocalState.init dirPath listing isfile).current_annot = AnnotVal.pyFalse ∧
    LocalState.has_annot (LocalState.init dirPath listing isfile) = true ∧
    (XnatIIState.init server catalog).current_annot = AnnotVal.pyFalse ∧
    XnatIIState.has_annot (XnatIIState.init server catalog) = true :=
  ⟨rfl, rfl, rfl, rfl⟩

/-- C1 (code bug evaluation): after begin, the first advance of
LocalFileIterator signals EndOfCatalog on a one-record catalogue instead
of returning the record at index 0, and on a two-record catalogue returns
the record at index 1: the record at index 0 is never returned because
the method increments the index before reading. -/
theorem C1_first_record_skipped :
    localOne.scans = ["/d/a.nii.gz"] ∧
    (LocalState.next localOne).1 = .error .stopIteration ∧
    localTwo.scans = ["/d/a.nii.gz", "/d/b.nii.gz"] ∧
    (LocalState.next localTwo).1 = .ok (some "/d/b.nii.gz", AnnotVal.pyNone) :=
  ⟨rfl, rfl, rfl, rfl⟩

/-- C7 (code bug evaluation): for the scan file /data/scan_z.nii.gz the
destination computed by store_annotations is /data/scan_.json, because
rstrip strips the trailing character set of .nii.gz, eating the stem
character z, rather than removing only the extension. -/
theorem C7_rstrip_eats_stem :
    LocalState.store_annotations localStoreState "/tmp/a.json" =
      .ok ("/tmp/a.json", "/data/scan_.json") ∧
    "/data/scan_.json" ≠ "/data/scan_z.json" :=
  ⟨rfl, by decide⟩

/-- C3 counterexample: the remote source of ImageIterator.py with the
skip flag enabled still returns a record, and the has-annotation probe of
the resulting state is True, so advance does return a record whose probe
is true and the claim fails for that scan source. -/
theorem C3_remote_skip_counterexample :
    remoteSkip.skip_annotated = true ∧
    (XnatIIState.next remoteSkip).1 = .ok "SESS2" ∧
    XnatIIState.has_annot (XnatIIState.next remoteSkip).2 = true :=
  ⟨rfl, rfl, rfl⟩

/-- C4 counterexample: when construction fails during credential
resolution the session attribute is still None, and teardown on that
partially constructed source raises an AttributeError instead of never
raising; both remote variants share the failing body, so both exhibit
it. -/
theorem C4_partial_teardown_counterexample :
    (XnatState.construct "srv" none none none [] =
        .error (.attributeError "netrc authenticators", partialXnat) ∧
      (XnatState.exit partialXnat).1 = .error (.attributeError "close")) ∧
    (XnatIIState.construct "srv" none none none [] =
        .error (.attributeError "netrc authenticators", partialXnatII) ∧
      (XnatIIState.exit partialXnatII).1 = .error (.attributeError "close")) :=
  ⟨⟨rfl, rfl⟩, ⟨rfl, rfl⟩⟩

/-- Filtering away a value equal to every member empties the list. -/
theorem filter_ne_nil_of_forall_eq (f : String) (ds : List String)
    (h : ∀ d ∈ ds, d = f) : ds.filter (fun d => d != f) = [] := by
  induction ds with
  | nil => rfl
  | cons hd tl ih =>
      have hhd : hd = f := h hd (List.mem_cons_self hd tl)
      rw [List.filter_cons]
      simp [hhd, ih (fun d hd2 => h d (List.mem_cons_of_mem hd hd2))]

/-- C4 (amended): on a fully constructed source (session present, for the
remote variants) whose on-disk working directory, when one exists, is the
current one, teardown is idempotent and total in every variant: two
consecutive calls both succeed and no working directory is left behind;
the local teardown is a no-op that never raises; and teardown of the
ImageIterator.py remote variant does not remove the mkdtemp parents
leaked by its advances. -/
theorem C4_teardown_idempotent
    (s : XnatState) (hs : s.session = some ())
    (hd : ∀ d ∈ s.diskDirs, s.current_scan_folder = some d)
    (t : XnatIIState) (hts : t.session = some ())
    (htd : ∀ d ∈ t.diskDirs, t.current_scan_folder = some d)
    (u : LocalState) :
    ((XnatState.exit s).1 = .ok () ∧
     (XnatState.exit (XnatState.exit s).2).1 = .ok () ∧
     (XnatState.exit (XnatState.exit s).2).2.current_scan_folder = none ∧
     (XnatState.exit (XnatState.exit s).2).2.diskDirs = []) ∧
    ((XnatIIState.exit t).1 = .ok () ∧
     (XnatIIState.exit (XnatIIState.exit t).2).1 = .ok () ∧
     (XnatIIState.exit (XnatIIState.exit t).2).2.current_scan_folder = none ∧
     (XnatIIState.exit (XnatIIState.exit t).2).2.diskDirs = [] ∧
     (XnatIIState.exit (XnatIIState.exit t).2).2.diskTmpParents = t.diskTmpParents) ∧
    ((LocalState.exit u).1 = .ok () ∧
     (LocalState.exit (LocalState.exit u).2).1 = .ok () ∧
     (LocalState.exit (LocalState.exit u).2).2 = u) := by
  refine ⟨?_, ?_, rfl, rfl, rfl⟩
  · rcases hf : s.current_scan_folder with _ | f
    · have hnil : s.diskDirs = [] := by
        rw [List.eq_nil_iff_forall_not_mem]
        intro d hdmem
        have := hd d hdmem
        rw [hf] at this
        exact absurd this (by simp)
      refine ⟨?_, ?_, ?_, ?_⟩ <;>
        simp [XnatState.exit, XnatState.delete_scan_dicom_folder, hf, hs, hnil]
    · have hall : ∀ d ∈ s.diskDirs, d = f := by
        intro d hdmem
        have := hd d hdmem
        rw [hf] at this
        exact (Option.some_inj.mp this.symm)
      have hfilter := filter_ne_nil_of_forall_eq f s.diskDirs hall
      refine ⟨?_, ?_, ?_, ?_⟩ <;>
        simp [XnatState.exit, XnatState.delete_scan_dicom_folder, hf, hs, hfilter]
  · rcases hf : t.current_scan_folder with _ | f
    · have hnil : t.diskDirs = [] := by
        rw [List.eq_nil_iff_forall_not_mem]
        intro d hdmem
        have := htd d hdmem
        rw [hf] at this
        exact absurd this (by simp)
      refine ⟨?_, ?_, ?_, ?_, ?_⟩ <;>
        simp [XnatIIState.exit, XnatIIState.delete_scan_dicom_folder, hf, hts, hnil]
    · have hall : ∀ d ∈ t.diskDirs, d = f := by
        intro d hdmem
        have := htd d hdmem
        rw [hf] at this
        exact (Option.some_inj.mp this.symm)
      have hfilter := filter_ne_nil_of_forall_eq f t.diskDirs hall
      refine ⟨?_, ?_, ?_, ?_, ?_⟩ <;>
        simp [XnatIIState.exit, XnatIIState.delete_scan_dicom_folder, hf, hts, hfilter]

/-- Witness for C4 (amended) at live mid-iteration sources of all three
variants, each with its working directory on disk where one exists. -/
theorem C4_teardown_idempotent_witness :
    (xnatLive.session = some () ∧ xnatIILive.session = some ()) ∧
    (XnatState.exit (XnatState.exit xnatLive).2).2.diskDirs = [] ∧
    (XnatIIState.exit (XnatIIState.exit xnatIILive).2).2.diskDirs = [] ∧
    (XnatIIState.exit (XnatIIState.exit xnatIILive).2).2.diskTmpParents = ["/tmp/mkdtemp0"] ∧
    (LocalState.exit (LocalState.exit localOne).2).2 = localOne :=
  ⟨⟨rfl, rfl⟩,
   (C4_teardown_idempotent xnatLive rfl (by decide) xnatIILive rfl (by decide) localOne).1.2.2.2,
   (C4_teardown_idempotent xnatLive rfl (by decide) xnatIILive rfl (by decide)
     localOne).2.1.2.2.2.1,
   (C4_teardown_idempotent xnatLive rfl (by decide) xnatIILive rfl (by decide)
     localOne).2.1.2.2.2.2,
   (C4_teardown_idempotent xnatLive rfl (by decide) xnatIILive rfl (by decide)
     localOne).2.2.2.2⟩

/-- Deletion empties the disk of working directories and clears the
current folder, for any state satisfying the invariant. -/
theorem wdInv_delete (s : XnatState) (h : XnatState.WdInv s) :
    (XnatState.delete_scan_dicom_folder s).diskDirs = [] ∧
    (XnatState.delete_scan_dicom_folder s).current_scan_folder = none := by
  rcases hf : s.current_scan_folder with _ | f
  · rcases h with h | ⟨g, hg, _⟩
    · simp [XnatState.delete_scan_dicom_folder, hf, h]
    · rw [hf] at hg
      exact absurd hg (by simp)
  · rcases h with h | ⟨g, hg, hds⟩
    · simp [XnatState.delete_scan_dicom_folder, hf, h]
    · rw [hf] at hg
      have hgf : f = g := Option.some_inj.mp hg
      subst hgf
      simp [XnatState.delete_scan_dicom_folder, hf, hds]

/-- advance preserves the working-directory invariant. -/
theorem wdInv_next (s : XnatState) (h : XnatState.WdInv s) :
    XnatState.WdInv (XnatState.next s).2 := by
  rcases hf : s.current_scan_folder with _ | f
  · have hnil : s.diskDirs = [] := by
      rcases h with h | ⟨g, hg, _⟩
      · exact h
      · rw [hf] at hg
        exact absurd hg (by simp)
    simp only [XnatState.next, hf, Option.isSome_none, Bool.false_eq_true, if_false]
    split
    · exact Or.inl (by simp [hnil])
    · exact Or.inl hnil
  · have hdel := wdInv_delete s h
    simp only [XnatState.next, hf, Option.isSome_some, if_true]
    split
    · exact Or.inl (by simp [hdel.1])
    · exact Or.inl hdel.1

/-- Teardown leaves exactly the state after folder deletion. -/
theorem exit_state (s0 : XnatState) :
    (XnatState.exit s0).2 = XnatState.delete_scan_dicom_folder s0 := by
  simp only [XnatState.exit]
  split <;> rfl

/-- Every operation preserves the working-directory invariant. -/
theorem wdInv_runOp (s : XnatState) (op : SourceOp) (h : XnatState.WdInv s) :
    XnatState.WdInv (XnatState.runOp s op) := by
  cases op with
  | advance => exact wdInv_next s h
  | materialize =>
      rcases hf : s.current_scan_folder with _ | f
      · simpa [XnatState.runOp, hf] using h
      · rcases h with hnil | ⟨g, hg, hds⟩
        · simp [XnatState.runOp, hf, hnil, XnatState.WdInv]
        · rw [hf] at hg
          have hgf : f = g := Option.some_inj.mp hg
          subst hgf
          have hmem : f ∈ s.diskDirs := by rw [hds]; exact List.mem_cons_self ..
          simp only [XnatState.runOp, hf, hmem, if_true]
          exact Or.inr ⟨f, rfl, hds⟩
  | teardown =>
      have hdel := wdInv_delete s h
      refine Or.inl ?_
      have h2 : XnatState.runOp s .teardown = (XnatState.exit s).2 := rfl
      rw [h2, exit_state]
      exact hdel.1

/-- A whole operation sequence preserves the working-directory
invariant. -/
theorem wdInv_runOps (ops : List SourceOp) :
    ∀ s : XnatState, XnatState.WdInv s → XnatState.WdInv (XnatState.runOps s ops) := by
  induction ops with
  | nil => intro s h; exact h
  | cons op rest ih =>
      intro s h
      exact ih (XnatState.runOp s op) (wdInv_runOp s op h)

/-- The invariant bounds the number of working directories by one. -/
theorem wdInv_length (s : XnatState) (h : XnatState.WdInv s) :
    s.diskDirs.length ≤ 1 := by
  rcases h with h | ⟨f, _, hds⟩
  · simp [h]
  · simp [hds]

/-- Deletion on the ImageIterator.py remote source empties the disk of
working directories and clears the current folder, under the invariant.
The leaked mkdtemp parents are untouched. -/
theorem wdInvII_delete (s : XnatIIState) (h : XnatIIState.WdInv s) :
    (XnatIIState.delete_scan_dicom_folder s).diskDirs = [] ∧
    (XnatIIState.delete_scan_dicom_folder s).current_scan_folder = none := by
  rcases hf : s.current_scan_folder with _ | f
  · rcases h with h | ⟨g, hg, _⟩
    · simp [XnatIIState.delete_scan_dicom_folder, hf, h]
    · rw [hf] at hg
      exact absurd hg (by simp)
  · rcases h with h | ⟨g, hg, hds⟩
    · simp [XnatIIState.delete_scan_dicom_folder, hf, h]
    · rw [hf] at hg
      have hgf : f = g := Option.some_inj.mp hg
      subst hgf
      simp [XnatIIState.delete_scan_dicom_folder, hf, hds]

/-- advance on the ImageIterator.py remote source preserves the
working-directory invariant: the previous working directory is deleted
first, and only a working-directory path (not a directory on disk) plus a
mkdtemp parent are produced. -/
theorem wdInvII_next (s : XnatIIState) (h : XnatIIState.WdInv s) :
    XnatIIState.WdInv (XnatIIState.next s).2 := by
  rcases hf : s.current_scan_folder with _ | f
  · have hnil : s.diskDirs = [] := by
      rcases h with h | ⟨g, hg, _⟩
      · exact h
      · rw [hf] at hg
        exact absurd hg (by simp)
    simp only [XnatIIState.next, hf, Option.isSome_none, Bool.false_eq_true, if_false]
    split
    · exact Or.inl (by simp [hnil])
    · exact Or.inl (by simp [hnil])
  · have hdel := wdInvII_delete s h
    simp only [XnatIIState.next, hf, Option.isSome_some, if_true]
    split
    · exact Or.inl (by simp [hdel.1])
    · exact Or.inl (by simp [hdel.1])

/-- Teardown of the ImageIterator.py remote source leaves exactly the
state after folder deletion. -/
theorem exitII_state (s0 : XnatIIState) :
    (XnatIIState.exit s0).2 = XnatIIState.delete_scan_dicom_folder s0 := by
  simp only [XnatIIState.exit]
  split <;> rfl

/-- Every operation on the ImageIterator.py remote source preserves the
working-directory invariant. -/
theorem wdInvII_runOp (s : XnatIIState) (op : SourceOp) (h : XnatIIState.WdInv s) :
    XnatIIState.WdInv (XnatIIState.runOp s op) := by
  cases op with
  | advance => exact wdInvII_next s h
  | materialize =>
      rcases hf : s.current_scan_folder with _ | f
      · simpa [XnatIIState.runOp, hf] using h
      · rcases h with hnil | ⟨g, hg, hds⟩
        · simp [XnatIIState.runOp, hf, hnil, XnatIIState.WdInv]
        · rw [hf] at hg
          have hgf : f = g := Option.some_inj.mp hg
          subst hgf
          have hmem : f ∈ s.diskDirs := by rw [hds]; exact List.mem_cons_self ..
          simp only [XnatIIState.runOp, hf, hmem, if_true]
          exact Or.inr ⟨f, rfl, hds⟩
  | teardown =>
      have hdel := wdInvII_delete s h
      refine Or.inl ?_
      have h2 : XnatIIState.runOp s .teardown = (XnatIIState.exit s).2 := rfl
      rw [h2, exitII_state]
      exact hdel.1

/-- A whole operation sequence on the ImageIterator.py remote source
preserves the working-directory invariant. -/
theorem wdInvII_runOps (ops : List SourceOp) :
    ∀ s : XnatIIState, XnatIIState.WdInv s → XnatIIState.WdInv (XnatIIState.runOps s ops) := by
  induction ops with
  | nil => intro s h; exact h
  | cons op rest ih =>
      intro s h
      exact ih (XnatIIState.runOp s op) (wdInvII_runOp s op h)

/-- The invariant bounds the working directories of the ImageIterator.py
remote source by one. -/
theorem wdInvII_length (s : XnatIIState) (h : XnatIIState.WdInv s) :
    s.diskDirs.length ≤ 1 := by
  rcases h with h | ⟨f, _, hds⟩
  · simp [h]
  · simp [hds]

/-- C2 (amended): for both remote scan source variants, from a fully
constructed source after begin, any finite sequence of operations
(advance, materialize, teardown) leaves at most one per-scan working
directory (the extraction target holding a scan's files) on disk at
every point, because advance deletes the previous working directory
before the exhaustion check. The empty mkdtemp parent directories that
the ImageIterator.py variant additionally leaks are the subject of the
accompanying counterexample and are not working directories. -/
theorem C2_at_most_one_workdir (server user pwd : String)
    (netrcAuth : Option (String × String)) (catalog : List ScanRecord)
    (ops : List SourceOp) :
    (XnatState.construct server (some user) (some pwd) netrcAuth catalog =
        .ok (XnatState.mkLive server catalog) ∧
      (XnatState.runOps (XnatState.iter (XnatState.mkLive server catalog))
        ops).diskDirs.length ≤ 1) ∧
    (XnatIIState.construct server (some user) (some pwd) netrcAuth catalog =
        .ok (XnatIIState.init server catalog) ∧
      (XnatIIState.runOps (XnatIIState.iter (XnatIIState.init server catalog))
        ops).diskDirs.length ≤ 1) := by
  refine ⟨⟨rfl, ?_⟩, ⟨rfl, ?_⟩⟩
  · apply wdInv_length
    apply wdInv_runOps
    exact Or.inl rfl
  · apply wdInvII_length
    apply wdInvII_runOps
    exact Or.inl rfl

/-- C2 counterexample (for the claim read as bounding every per-scan
directory the source creates): on the ImageIterator.py remote source,
each of two successive advances creates a fresh per-scan mkdtemp
directory on disk, neither advance nor teardown ever deletes them, so
after two advances two such directories exist simultaneously and both
survive teardown. -/
theorem C2_mkdtemp_leak_counterexample :
    (XnatIIState.next (XnatIIState.next remoteThree).2).1 = .ok "SESS3" ∧
    (XnatIIState.next (XnatIIState.next remoteThree).2).2.diskTmpParents =
      ["/tmp/mkdtemp1", "/tmp/mkdtemp0"] ∧
    (XnatIIState.exit (XnatIIState.next (XnatIIState.next remoteThree).2).2).2.diskTmpParents =
      ["/tmp/mkdtemp1", "/tmp/mkdtemp0"] :=
  ⟨rfl, rfl, rfl⟩

/-- A value whose is-not-None test is false is None. -/
theorem annot_none_of_isNotNone_false (v : AnnotVal) (h : AnnotVal.isNotNone v = false) :
    v = AnnotVal.pyNone := by
  cases v <;> simp [AnnotVal.isNotNone] at h ⊢

/-- With the skip flag set, a successful step of the fuelled local
advance returns a None annotation and leaves a None current annotation. -/
theorem nextFuel_skip_annot_none (fuel : Nat) :
    ∀ (s : LocalState) (sc : Option String) (annot : AnnotVal) (s2 : LocalState),
      s.skip_annotated = true →
      LocalState.nextFuel fuel s = (.ok (sc, annot), s2) →
      annot = AnnotVal.pyNone ∧ s2.current_annot = AnnotVal.pyNone := by
  induction fuel with
  | zero =>
      intro s sc annot s2 hskip h
      simp [LocalState.nextFuel] at h
  | succ n ih =>
      intro s sc annot s2 hskip h
      rw [LocalState.nextFuel] at h
      split at h
      · rename_i hlt
        dsimp only at h
        split at h
        · rename_i hfile
          rw [hskip] at h
          simp only [LocalState.has_annot, AnnotVal.isNotNone, Bool.true_and,
            eq_self_iff_true, if_true] at h
          split at h
          · rename_i v t hrec
            simp only [Prod.mk.injEq, Except.ok.injEq] at h
            obtain ⟨⟨hsc, hannot⟩, hst⟩ := h
            obtain ⟨vsc, vannot⟩ := v
            have hih := ih _ vsc vannot t rfl hrec
            subst hst
            refine ⟨?_, hih.2⟩
            rw [← hannot]
            exact hih.2
          · rename_i e t hrec
            simp at h
        · rename_i hfile
          simp only [LocalState.has_annot, AnnotVal.isNotNone, Bool.and_false,
            Bool.false_eq_true, if_false] at h
          simp only [Prod.mk.injEq, Except.ok.injEq] at h
          obtain ⟨⟨hsc, hannot⟩, hst⟩ := h
          subst hst
          exact ⟨hannot.symm, rfl⟩
      · simp at h

/-- C3 (amended, local part): with the skip flag set, whenever the local
advance returns a record, the returned annotation is None and the
has-annotation probe of the resulting state is false: every annotated row
is silently skipped until an unannotated row or EndOfCatalog. -/
theorem C3_local_skip (s : LocalState) (sc : Option String) (annot : AnnotVal)
    (s2 : LocalState) (hskip : s.skip_annotated = true)
    (h : LocalState.next s = (.ok (sc, annot), s2)) :
    annot = AnnotVal.pyNone ∧ LocalState.has_annot s2 = false := by
  have hmain := nextFuel_skip_annot_none (s.scans.length + 1) s sc annot s2 hskip h
  refine ⟨hmain.1, ?_⟩
  simp [LocalState.has_annot, hmain.2, AnnotVal.isNotNone]

/-- Witness for C3 (amended) on a catalogue whose annotated row is
skipped in favour of the following unannotated row. -/
theorem C3_local_skip_witness :
    localSkip.skip_annotated = true ∧
    (LocalState.next localSkip).1 = .ok (some "/d/b.nii.gz", AnnotVal.pyNone) ∧
    AnnotVal.pyNone = AnnotVal.pyNone ∧
    LocalState.has_annot (LocalState.next localSkip).2 = false := by
  refine ⟨rfl, rfl, ?_, ?_⟩
  · exact (C3_local_skip localSkip (some "/d/b.nii.gz") AnnotVal.pyNone
      (LocalState.next localSkip).2 rfl rfl).1 ▸ rfl
  · exact (C3_local_skip localSkip (some "/d/b.nii.gz") AnnotVal.pyNone
      (LocalState.next localSkip).2 rfl rfl).2

/-- Basenames contain no slash. -/
theorem basename_no_slash (e : String) : '/' ∉ (pyBasename e).data := by
  intro hmem
  have h1 : '/' ∈ e.data.reverse.takeWhile (fun c => c != '/') := by
    simpa [pyBasename] using hmem
  have h2 := List.mem_takeWhile_imp h1
  simp at h2

/-- A basename never starts with a slash. -/
theorem startsWith_slash_basename (e : String) :
    strStartsWith (pyBasename e) "/" = false := by
  have hno := basename_no_slash e
  unfold strStartsWith
  rcases hdd : (pyBasename e).data with _ | ⟨c, cs⟩
  · rfl
  · have hc : ('/' : Char) ≠ c := by
      intro hch
      apply hno
      rw [hdd, ← hch]
      exact List.mem_cons_self ..
    have hslash : "/".data = ['/'] := rfl
    rw [hslash]
    simp [List.isPrefixOf, hc]

/-- Joining the working directory with an extracted basename under the
normal-form hypotheses reduces to slash concatenation. -/
theorem pyJoin_basename (w b : String) (hw1 : w ≠ "") (hw2 : strEndsWith w "/" = false)
    (hb : strStartsWith b "/" = false) :
    pyJoin w b = w ++ "/" ++ b := by
  simp [pyJoin, hb, hw1, hw2]

/-- A slash-joined path is never the sibling zip archive path. -/
theorem slashJoin_ne_zip (w b : String) : w ++ "/" ++ b ≠ w ++ ".zip" := by
  intro h
  have hdata : (w ++ "/" ++ b).data = (w ++ ".zip").data := congrArg String.data h
  rw [String.data_append, String.data_append, String.data_append, List.append_assoc] at hdata
  have h2 := List.append_cancel_left hdata
  have h3 : ('/' :: b.data) = ('.' :: 'z' :: 'i' :: 'p' :: []) := h2
  have h4 : ('/' : Char) = '.' := by
    injection h3
  exact absurd h4 (by decide)

/-- C5: the archive extraction puts every file entry (directory entries
skipped) at the join of the working directory and the basename of its
archive path, deletes the downloaded archive afterwards, and every file
it creates is such a flattened basename, containing no slash, so no
nested folder structure survives extraction. -/
theorem C5_extract_flattened (workdir : String) (zipEntries : List String)
    (files0 : List String) (hw1 : workdir ≠ "") (hw2 : strEndsWith workdir "/" = false) :
    (∀ e ∈ zipEntries, strEndsWith e "/" = false →
      pyJoin workdir (pyBasename e) ∈ (runGetScanDicomFolder workdir zipEntries files0).1) ∧
    workdir ++ ".zip" ∉ (runGetScanDicomFolder workdir zipEntries files0).1 ∧
    (∀ f ∈ (runGetScanDicomFolder workdir zipEntries files0).1, f ∉ files0 →
      ∃ e, e ∈ zipEntries ∧ strEndsWith e "/" = false ∧
        f = pyJoin workdir (pyBasename e) ∧ '/' ∉ (pyBasename e).data) := by
  refine ⟨?_, ?_, ?_⟩
  · intro e he hfile
    have hne : pyJoin workdir (pyBasename e) ≠ workdir ++ ".zip" := by
      rw [pyJoin_basename workdir (pyBasename e) hw1 hw2 (startsWith_slash_basename e)]
      exact slashJoin_ne_zip workdir (pyBasename e)
    simp only [runGetScanDicomFolder]
    rw [List.mem_filter]
    constructor
    · refine List.mem_append.mpr (Or.inr ?_)
      exact List.mem_map.mpr ⟨e, List.mem_filter.mpr ⟨he, by simp [hfile]⟩, rfl⟩
    · simpa using hne
  · intro hmem
    simp only [runGetScanDicomFolder] at hmem
    have := (List.mem_filter.mp hmem).2
    simp at this
  · intro f hf hnot0
    simp only [runGetScanDicomFolder] at hf
    have h1 := List.mem_filter.mp hf
    rcases List.mem_append.mp h1.1 with h3 | h3
    · rcases List.mem_append.mp h3 with h4 | h4
      · exact absurd h4 hnot0
      · have hfz : f = workdir ++ ".zip" := by simpa using h4
        have h5 := h1.2
        rw [hfz] at h5
        simp at h5
    · rcases List.mem_map.mp h3 with ⟨e, hef, hfe⟩
      have he := List.mem_filter.mp hef
      refine ⟨e, he.1, ?_, hfe.symm, basename_no_slash e⟩
      simpa using he.2

/-- Witness for C5: a nested archive entry A/B/scan001.dcm extracts flat
to /tmp/W-1/scan001.dcm and the archive file is not among the resulting
files. -/
theorem C5_extract_flattened_witness :
    ("/tmp/W-1" ≠ "" ∧ strEndsWith "/tmp/W-1" "/" = false ∧
      (runGetScanDicomFolder "/tmp/W-1" ["A/B/scan001.dcm", "A/"] []).1 =
        ["/tmp/W-1/scan001.dcm"]) ∧
    ("/tmp/W-1/scan001.dcm" : String) ∈
      (runGetScanDicomFolder "/tmp/W-1" ["A/B/scan001.dcm", "A/"] []).1 :=
  ⟨⟨by decide, by decide, rfl⟩,
   (C5_extract_flattened "/tmp/W-1" ["A/B/scan001.dcm", "A/"] [] (by decide) (by decide)).1
     "A/B/scan001.dcm" (by decide) (by decide)⟩

/-- C6: with a current record, the upload issues exactly two PUTs: first
the ANNOTATIONS resource container on the projects/subjects/experiments/
scans path of the record, then the artifact file at that container path
extended with /files/{session_label}-{id}.json. -/
theorem C6_upload_paths (s : XnatState) (r : ScanRecord) (f : String)
    (h : s.current_scan = some r) :
    XnatState.upload_annotations s f = .ok
      [HttpReq.put (s.server ++ "/data/projects/" ++ r.project ++ "/subjects/" ++
          r.subject_id ++ "/experiments/" ++ r.session_id ++ "/scans/" ++ r.id ++
          "/resources/ANNOTATIONS"),
       HttpReq.putFile ((s.server ++ "/data/projects/" ++ r.project ++ "/subjects/" ++
          r.subject_id ++ "/experiments/" ++ r.session_id ++ "/scans/" ++ r.id ++
          "/resources/ANNOTATIONS") ++ "/files/" ++
          (r.session_label ++ "-" ++ r.id ++ ".json")) f] := by
  simp [XnatState.upload_annotations, h]

/-- Witness for C6 at the record of the spec example: the file path ends
/scans/3/resources/ANNOTATIONS/files/SESS1-3.json. -/
theorem C6_upload_paths_witness :
    xnatLive.current_scan = some recA ∧
    XnatState.upload_annotations xnatLive "/tmp/a1.json" = .ok
      [HttpReq.put
        "srv/data/projects/P/subjects/S1/experiments/SESS1/scans/3/resources/ANNOTATIONS",
       HttpReq.putFile
        "srv/data/projects/P/subjects/S1/experiments/SESS1/scans/3/resources/ANNOTATIONS/files/SESS1-3.json"
        "/tmp/a1.json"] :=
  ⟨rfl, C6_upload_paths xnatLive recA "/tmp/a1.json" rfl⟩

end SpineSlicelet
